import Mathlib

/-!
# Verification of the figma-claude-proxy request pipeline

Shallow embedding of the proxy's core pipeline:

* `checkRateLimit` — the fixed-window in-memory rate limiter
  (src/api/claude-proxy.ts, `checkRateLimit`),
* `validateClaudeRequest` / `validateClaudeRequestV2` — the request
  validator, in its 4096-bound and 8192-bound endpoint variants
  (src/api/claude-proxy.ts, `validateClaudeRequest`),
* `handleProxyError` — the error normalizer
  (src/api/claude-proxy.ts, `handleProxyError`),
* `proxyHandler` — the buffered request handler orchestration
  (src/api/claude-proxy.ts, default `handler`),
* `relayStream` / `streamHandler` — the SSE streaming relay
  (src/api/claude-stream-v2.ts, default `handler`),
* `streamCatch` / `agentCatch` — the catch-all error responders of the
  streaming and agent endpoints (src/api/claude-stream-v2.ts,
  src/api/test-basic.ts agent handler).

JavaScript dynamic values are embedded as `JsValue`; property access on
`null`/`undefined` raises a `TypeError`, modelled with `Except String`.
JavaScript truthiness is embedded by `truthy`.  Numeric-string coercion in
comparisons is not modelled (no verified property depends on it); the
`max_tokens` bound check compares only number values, as `jsNumOutOfRange`.
-/

/-- A JavaScript runtime value, as far as the proxy's pipeline inspects it:
`null`, `undefined`, booleans, (integer) numbers, strings, arrays and
plain objects. -/
inductive JsValue where
  | null
  | undefined
  | bool (b : Bool)
  | num (n : Int)
  | str (s : String)
  | arr (elems : List JsValue)
  | obj (fields : List (String × JsValue))
deriving Repr

mutual

/-- Structural equality test for `JsValue` (written by hand because the
nested `List` occurrences defeat automatic `DecidableEq` derivation). -/
def JsValue.beq : JsValue → JsValue → Bool
  | .null, .null => true
  | .undefined, .undefined => true
  | .bool a, .bool b => a == b
  | .num a, .num b => a == b
  | .str a, .str b => a == b
  | .arr xs, .arr ys => JsValue.beqList xs ys
  | .obj xs, .obj ys => JsValue.beqFields xs ys
  | _, _ => false

def JsValue.beqList : List JsValue → List JsValue → Bool
  | [], [] => true
  | x :: xs, y :: ys => JsValue.beq x y && JsValue.beqList xs ys
  | _, _ => false

def JsValue.beqFields : List (String × JsValue) → List (String × JsValue) → Bool
  | [], [] => true
  | (k, v) :: xs, (l, w) :: ys => k == l && JsValue.beq v w && JsValue.beqFields xs ys
  | _, _ => false

end

mutual

theorem JsValue.beq_iff : ∀ a b : JsValue, JsValue.beq a b = true ↔ a = b
  | .null, b => by cases b <;> simp [JsValue.beq]
  | .undefined, b => by cases b <;> simp [JsValue.beq]
  | .bool a, b => by cases b <;> simp [JsValue.beq]
  | .num a, b => by cases b <;> simp [JsValue.beq]
  | .str a, b => by cases b <;> simp [JsValue.beq]
  | .arr xs, b => by
      cases b <;> simp [JsValue.beq]
      exact JsValue.beqList_iff xs _
  | .obj xs, b => by
      cases b <;> simp [JsValue.beq]
      exact JsValue.beqFields_iff xs _

theorem JsValue.beqList_iff : ∀ xs ys : List JsValue, JsValue.beqList xs ys = true ↔ xs = ys
  | [], ys => by cases ys <;> simp [JsValue.beqList]
  | x :: xs, ys => by
      cases ys with
      | nil => simp [JsValue.beqList]
      | cons y ys =>
          simp [JsValue.beqList, JsValue.beq_iff x y, JsValue.beqList_iff xs ys]

theorem JsValue.beqFields_iff :
    ∀ xs ys : List (String × JsValue), JsValue.beqFields xs ys = true ↔ xs = ys
  | [], ys => by cases ys <;> simp [JsValue.beqFields]
  | (k, v) :: xs, ys => by
      cases ys with
      | nil => simp [JsValue.beqFields]
      | cons y ys =>
          obtain ⟨l, w⟩ := y
          simp [JsValue.beqFields, JsValue.beq_iff v w, JsValue.beqFields_iff xs ys,
            and_assoc]

end

instance : DecidableEq JsValue := fun a b =>
  decidable_of_iff (JsValue.beq a b = true) (JsValue.beq_iff a b)

deriving instance DecidableEq for Except

/-- JavaScript truthiness: `null`, `undefined`, `false`, `0` and `""` are
falsy; every other value (including every array and object) is truthy. -/
def truthy : JsValue → Bool
  | .null => false
  | .undefined => false
  | .bool b => b
  | .num n => n != 0
  | .str s => s != ""
  | .arr _ => true
  | .obj _ => true

/-- `Array.isArray`. -/
def isArray : JsValue → Bool
  | .arr _ => true
  | _ => false

/-- First-match lookup of a property name in an object's field list;
absent properties read as `undefined`. -/
def lookupField : List (String × JsValue) → String → JsValue
  | [], _ => .undefined
  | (k, v) :: rest, name => if k = name then v else lookupField rest name

/-- JavaScript property access `v.name`: a `TypeError` on `null` or
`undefined`, the stored field (or `undefined`) on objects, and
`undefined` on the primitives the pipeline reads its fields from. -/
def getField : JsValue → String → Except String JsValue
  | .null, name =>
      .error ("TypeError: Cannot read properties of null (reading '" ++ name ++ "')")
  | .undefined, name =>
      .error ("TypeError: Cannot read properties of undefined (reading '" ++ name ++ "')")
  | .obj fields, name => .ok (lookupField fields name)
  | _, _ => .ok .undefined

/-- Non-throwing property access, usable once the receiver is known not to
be `null`/`undefined`. -/
def jsAccess : JsValue → String → JsValue
  | .obj fields, name => lookupField fields name
  | _, _ => .undefined

/-- A value is nullish when property access on it throws. -/
def nullish : JsValue → Bool
  | .null => true
  | .undefined => true
  | _ => false

/-! ## Request validator (src/api/claude-proxy.ts, `validateClaudeRequest`) -/

/-- The validator's result object `{ valid, error? }`. -/
structure VResult where
  valid : Bool
  error : Option String
deriving Repr, DecidableEq

/-- The model allow-list of the original endpoint variant. -/
def allowedModels : List String :=
  [ "claude-3-5-sonnet-20241022"
  , "claude-3-5-sonnet-20240620"
  , "claude-3-opus-20240229"
  , "claude-3-sonnet-20240229"
  , "claude-3-haiku-20240307" ]

/-- The model allow-list of the later endpoint variant. -/
def allowedModelsV2 : List String :=
  [ "claude-sonnet-4-5-20250929"
  , "claude-haiku-4-5-20251001"
  , "claude-opus-4-1-20250805"
  , "claude-sonnet-4-20250514"
  , "claude-opus-4-20250514"
  , "claude-3-7-sonnet-20250219"
  , "claude-3-5-haiku-20241022"
  , "claude-3-haiku-20240307" ]

/-- `allowedModels.includes(body.model)`: JavaScript `includes` uses strict
equality, so only a string can match the string allow-list. -/
def modelAllowed (models : List String) : JsValue → Bool
  | .str s => models.contains s
  | _ => false

/-- The `body.max_tokens < 1 || body.max_tokens > bound` comparison of the
source, restricted to number values (comparisons against non-numbers never
hold for the inputs a claim inspects; numeric-string coercion is not
modelled). -/
def jsNumOutOfRange (v : JsValue) (bound : Int) : Bool :=
  match v with
  | .num n => n < 1 || n > bound
  | _ => false

/-- The `for (const msg of body.messages)` loop: stops at the first message
without a truthy `role` and `content`, or with a `role` outside
`["user", "assistant"]`; accessing `role` on a nullish element throws. -/
def checkMessages : List JsValue → Except String (Option VResult)
  | [] => .ok none
  | msg :: rest =>
    match getField msg "role" with
    | .error e => .error e
    | .ok role =>
      match getField msg "content" with
      | .error e => .error e
      | .ok content =>
        if !truthy role || !truthy content then
          .ok (some ⟨false, some "Each message must have 'role' and 'content'"⟩)
        else if !(role == JsValue.str "user" || role == JsValue.str "assistant") then
          .ok (some ⟨false, some "Message role must be 'user' or 'assistant'"⟩)
        else
          checkMessages rest

/-- `validateClaudeRequest`, parameterized over the two constants that
distinguish the endpoint variants (model allow-list and `max_tokens`
bound); everything else is shared verbatim between the variants. -/
def validateClaudeRequestCore (models : List String) (maxBound : Int)
    (body : JsValue) : Except String VResult :=
  match getField body "messages" with
  | .error e => .error e
  | .ok messages =>
    if !truthy messages || !isArray messages then
      .ok ⟨false, some "Missing or invalid 'messages' array"⟩
    else
      match messages with
      | .arr msgs =>
        if msgs.length = 0 then
          .ok ⟨false, some "Messages array cannot be empty"⟩
        else
          match checkMessages msgs with
          | .error e => .error e
          | .ok (some r) => .ok r
          | .ok none =>
            match getField body "model" with
            | .error e => .error e
            | .ok model =>
              if !truthy model then
                .ok ⟨false, some "Missing 'model' field"⟩
              else if !modelAllowed models model then
                .ok ⟨false, some ("Invalid model. Allowed models: " ++
                  String.intercalate ", " models)⟩
              else
                match getField body "max_tokens" with
                | .error e => .error e
                | .ok mt =>
                  if truthy mt && jsNumOutOfRange mt maxBound then
                    .ok ⟨false, some ("max_tokens must be between 1 and " ++
                      toString maxBound)⟩
                  else
                    .ok ⟨true, none⟩
      | _ =>
        -- unreachable: the guard above already returned on non-arrays
        .ok ⟨false, some "Missing or invalid 'messages' array"⟩

/-- The original endpoint variant: five allow-listed models, bound 4096. -/
def validateClaudeRequest (body : JsValue) : Except String VResult :=
  validateClaudeRequestCore allowedModels 4096 body

/-- The later endpoint variant: eight allow-listed models, bound 8192. -/
def validateClaudeRequestV2 (body : JsValue) : Except String VResult :=
  validateClaudeRequestCore allowedModelsV2 8192 body

/-- A message passes the loop's checks: truthy `role` and `content`, and a
`role` strictly equal to `"user"` or `"assistant"`. -/
def msgOk (m : JsValue) : Bool :=
  (truthy (jsAccess m "role") && truthy (jsAccess m "content")) &&
  (jsAccess m "role" == JsValue.str "user" || jsAccess m "role" == JsValue.str "assistant")

/-- A request body that satisfies every rule except possibly the
`max_tokens` bound: one well-formed user message, an allow-listed model
(present in both variants' lists), and `max_tokens = n`. -/
def bodyWithMaxTokens (n : Int) : JsValue :=
  .obj [ ("messages", .arr [.obj [("role", .str "user"), ("content", .str "Hi")]])
       , ("model", .str "claude-3-haiku-20240307")
       , ("max_tokens", .num n) ]

/-! ## Rate limiter (src/api/claude-proxy.ts, `checkRateLimit`) -/

/-- One entry of the in-memory rate-limit `Map`:
`{ count: number; resetTime: number }` (times in epoch milliseconds). -/
structure RateLimitEntry where
  count : Nat
  resetTime : Nat
deriving Repr, DecidableEq

/-- The process-wide `rateLimitStore` map, keyed by client identifier. -/
def RateLimitStore := String → Option RateLimitEntry

/-- `checkRateLimit(clientId)`, with the ambient state made explicit:
`now` is `Date.now()`, `limit` and `window` the two environment-derived
constants, `store` the current map.  Returns the admit decision together
with the updated map. -/
def checkRateLimit (clientId : String) (now limit window : Nat)
    (store : RateLimitStore) : Bool × RateLimitStore :=
  match store clientId with
  | none =>
      (true, fun k => if k = clientId then some ⟨1, now + window⟩ else store k)
  | some current =>
      if current.resetTime < now then
        (true, fun k => if k = clientId then some ⟨1, now + window⟩ else store k)
      else if current.count < limit then
        (true, fun k => if k = clientId then some ⟨current.count + 1, current.resetTime⟩
                        else store k)
      else
        (false, store)

/-- The empty `rateLimitStore` (state right after a cold start). -/
def emptyStore : RateLimitStore := fun _ => none

/-- Run a sequence of `checkRateLimit` calls, each given as a pair of
client identifier and clock reading; collects the admit decisions. -/
def runRateCalls (limit window : Nat) :
    List (String × Nat) → RateLimitStore → List Bool × RateLimitStore
  | [], store => ([], store)
  | (c, t) :: rest, store =>
      let r := checkRateLimit c t limit window store
      let rs := runRateCalls limit window rest r.2
      (r.1 :: rs.1, rs.2)

/-! ## Error normalizer (src/api/claude-proxy.ts, `handleProxyError`) -/

/-- The error value handed to `handleProxyError`, as far as it inspects it:
an axios error carrying an upstream HTTP response (status, the upstream's
`retry-after` header, and the `{error: {type, message}}` body fields, each
`none` when absent or falsy), an axios transport error carrying only an
error `code`, or any other thrown exception. -/
inductive UpstreamError where
  | httpResponse (status : Nat) (retryAfterHeader : Option String)
      (errorType : Option String) (errorMessage : Option String)
  | transport (code : String)
  | exception (name message stack : String)
deriving Repr, DecidableEq

/-- The response `handleProxyError` produces: HTTP status, the
`Retry-After` header when set, and the JSON body's `error`, `message` and
optional `retry_after` fields. -/
structure NormalizedResponse where
  status : Nat
  retryAfterHeader : Option String
  error : String
  message : String
  retry_after : Option String
deriving Repr, DecidableEq

/-- `headers["retry-after"] || "60"`. -/
def retryAfterOrDefault : Option String → String
  | some h => if h = "" then "60" else h
  | none => "60"

/-- `data.error?.message || fallback` (the `Option` is `none` for an
absent or falsy message). -/
def msgOrDefault (m : Option String) (fallback : String) : String :=
  match m with
  | some s => if s = "" then fallback else s
  | none => fallback

/-- `handleProxyError`: the classification cascade of the source, branch
for branch. -/
def handleProxyError : UpstreamError → NormalizedResponse
  | .httpResponse status hdr etype emsg =>
      if status = 429 then
        let ra := retryAfterOrDefault hdr
        ⟨429, some ra, "rate_limit_exceeded",
          msgOrDefault emsg "Claude API rate limit reached", some ra⟩
      else if status = 401 ∨ status = 403 then
        ⟨status, none, "authentication_failed", "Invalid or expired API credentials", none⟩
      else if status = 529 then
        ⟨503, some "60", "service_unavailable",
          "Claude API is experiencing high traffic", none⟩
      else if status = 400 then
        ⟨400, none, "invalid_request",
          msgOrDefault emsg "Invalid request to Claude API", none⟩
      else
        ⟨status, none, msgOrDefault etype "api_error",
          msgOrDefault emsg "Unknown error from Claude API", none⟩
  | .transport code =>
      if code = "ECONNABORTED" then
        ⟨504, none, "request_timeout", "Claude API request timed out after 30 seconds", none⟩
      else if code = "ECONNREFUSED" ∨ code = "ENOTFOUND" then
        ⟨503, none, "service_unavailable", "Could not connect to Claude API", none⟩
      else
        ⟨500, none, "internal_server_error",
          "An unexpected error occurred while proxying your request", none⟩
  | .exception _ _ _ =>
      ⟨500, none, "internal_server_error",
        "An unexpected error occurred while proxying your request", none⟩

/-! ## Buffered request handler (src/api/claude-proxy.ts, `handler`) -/

/-- An inbound request, after the handler's client-identifier derivation:
HTTP method, derived client id, parsed JSON body. -/
structure ProxyRequest where
  method : String
  clientId : String
  body : JsValue
deriving Repr, DecidableEq

/-- The handler's environment: `process.env.ANTHROPIC_API_KEY` and the two
rate-limit constants. -/
structure ProxyEnv where
  apiKey : Option String
  limit : Nat
  window : Nat
deriving Repr, DecidableEq

/-- What one handler invocation does before returning: answer the CORS
preflight, return an early error response (status and `error` kind, no
upstream traffic), or issue the outbound network call to the provider with
the forwarded body and the server credential. -/
inductive ProxyOutcome where
  | preflight
  | errorResponse (status : Nat) (error : String) (message : String)
  | upstreamCall (body : JsValue) (apiKey : String)
deriving Repr, DecidableEq

/-- The buffered handler's control flow up to the outbound `axios.post`:
CORS preflight, method check, rate limit, body validation (a thrown
`TypeError` falls into the `catch` and is normalized to a generic 500),
credential presence check, then the upstream call.  The rate-limit store
update is returned alongside the outcome. -/
def proxyHandler (req : ProxyRequest) (env : ProxyEnv) (now : Nat)
    (store : RateLimitStore) : ProxyOutcome × RateLimitStore :=
  if req.method = "OPTIONS" then
    (.preflight, store)
  else if req.method ≠ "POST" then
    (.errorResponse 405 "method_not_allowed" "Only POST requests are supported", store)
  else
    let rl := checkRateLimit req.clientId now env.limit env.window store
    if rl.1 = false then
      (.errorResponse 429 "rate_limit_exceeded" "Too many requests. Please try again later.",
        rl.2)
    else
      match validateClaudeRequest req.body with
      | .error _ =>
          (.errorResponse 500 "internal_server_error"
            "An unexpected error occurred while proxying your request", rl.2)
      | .ok r =>
          if r.valid = false then
            (.errorResponse 400 "invalid_request" (r.error.getD ""), rl.2)
          else
            match env.apiKey with
            | none =>
                (.errorResponse 500 "server_configuration_error"
                  "API key not configured on server", rl.2)
            | some key =>
                if key = "" then
                  (.errorResponse 500 "server_configuration_error"
                    "API key not configured on server", rl.2)
                else
                  (.upstreamCall req.body key, rl.2)

/-! ## Streaming relay (src/api/claude-stream-v2.ts, `handler`) -/

/-- The `for await` write loop followed by the terminal write: each text
fragment is written as `data: <fragment>\n\n` in arrival order, then
`data: [DONE]\n\n`; `out` accumulates the writes already issued. -/
def relayStream : List String → List String → List String
  | [], out => out ++ ["data: [DONE]\n\n"]
  | f :: rest, out => relayStream rest (out ++ ["data: " ++ f ++ "\n\n"])

/-- A thrown JavaScript `Error` as the catch blocks inspect it. -/
structure JsError where
  name : String
  message : String
  stack : String
deriving Repr, DecidableEq

/-- `Error.prototype.toString()`: `"name: message"`, or just the name when
the message is empty. -/
def errToString (e : JsError) : String :=
  if e.message = "" then e.name else e.name ++ ": " ++ e.message

/-- The JSON body of the streaming endpoint's catch-all 500 response
(src/api/claude-stream-v2.ts, the `catch` branch):
`{ error: error.message || 'Internal server error', details: error.toString() }`. -/
structure StreamErrorBody where
  status : Nat
  error : String
  details : String
deriving Repr, DecidableEq

def streamCatch (e : JsError) : StreamErrorBody :=
  ⟨500, if e.message = "" then "Internal server error" else e.message, errToString e⟩

/-- The JSON body of the agent endpoint's catch-all 500 response
(src/api/test-basic.ts, agent handler `catch` branch):
`{ error: error.message || ..., details: error.toString(), stack: error.stack }`. -/
structure AgentErrorBody where
  status : Nat
  error : String
  details : String
  stack : String
deriving Repr, DecidableEq

def agentCatch (e : JsError) : AgentErrorBody :=
  ⟨500, if e.message = "" then "Internal server error" else e.message,
    errToString e, e.stack⟩

/-- `process.env.ANTHROPIC_API_KEY?.startsWith('sk-ant-')` — false when the
variable is unset (optional chaining yields `undefined`, which is falsy). -/
def keyHasAnthropicFormat : Option String → Bool
  | none => false
  | some k => "sk-ant-".data.isPrefixOf k.data

/-- What the streaming handler does: preflight, 405, a caught exception
(the body-destructuring `TypeError` on a nullish body, echoed by the catch
branch), a pre-stream JSON error, or the SSE write sequence. -/
inductive StreamOutcome where
  | preflight
  | caught (body : StreamErrorBody)
  | jsonError (status : Nat) (error : String)
  | sse (writes : List String)
deriving Repr, DecidableEq

/-- The streaming handler of src/api/claude-stream-v2.ts, with the provider
stream's text fragments supplied as `fragments`: OPTIONS → 204; non-POST →
405; destructuring `req.body` throws on a nullish body (the exact
`TypeError` message text is runtime-generated; only its classification
matters here); missing `model`/`messages` → 400; credential absent or not
`sk-ant-`-prefixed → 500; otherwise the SSE relay runs to completion. -/
def streamHandler (method : String) (body : JsValue) (apiKey : Option String)
    (fragments : List String) : StreamOutcome :=
  if method = "OPTIONS" then
    .preflight
  else if method ≠ "POST" then
    .jsonError 405 "Method not allowed"
  else if nullish body then
    .caught (streamCatch
      ⟨"TypeError", "Cannot destructure property 'model' of 'req.body' as it is " ++
        (if body = .null then "null" else "undefined") ++ ".", ""⟩)
  else if !truthy (jsAccess body "model") || !truthy (jsAccess body "messages") then
    .jsonError 400 "Missing required fields: model, messages"
  else if keyHasAnthropicFormat apiKey = false then
    .jsonError 500 "ANTHROPIC_API_KEY not configured"
  else
    .sse (relayStream fragments [])

/-! ## Helper lemmas -/

/-- Property access on a non-nullish value never throws and agrees with
`jsAccess`. -/
theorem getField_eq_ok {v : JsValue} (h : nullish v = false) (name : String) :
    getField v name = .ok (jsAccess v name) := by
  cases v <;> simp_all [nullish, getField, jsAccess]

/-- Unrolling the SSE write loop against its accumulator. -/
theorem relayStream_eq (fs out : List String) :
    relayStream fs out =
      out ++ fs.map (fun f => "data: " ++ f ++ "\n\n") ++ ["data: [DONE]\n\n"] := by
  induction fs generalizing out with
  | nil => simp [relayStream]
  | cons f rest ih => simp [relayStream, ih]

/-- **C4**: for every provider stream emitting fragments `f1, ..., fn`
followed by clean completion, the streaming handler writes exactly
`data: f1\n\n`, ..., `data: fn\n\n`, `data: [DONE]\n\n`, in arrival order,
with no reordering and no extra fragments; for fragments `["He", "llo"]`
it emits exactly `data: He\n\n`, `data: llo\n\n`, `data: [DONE]\n\n`. -/
theorem streaming_relay_exact_output :
    (∀ (body : JsValue) (key : String) (fragments : List String),
        nullish body = false →
        truthy (jsAccess body "model") = true →
        truthy (jsAccess body "messages") = true →
        keyHasAnthropicFormat (some key) = true →
        streamHandler "POST" body (some key) fragments =
          .sse (fragments.map (fun f => "data: " ++ f ++ "\n\n") ++ ["data: [DONE]\n\n"])) ∧
    streamHandler "POST"
        (.obj [("model", .str "claude-sonnet-4-5-20250929"),
               ("messages", .arr [.obj [("role", .str "user"), ("content", .str "Hi")]])])
        (some "sk-ant-key") ["He", "llo"] =
      .sse ["data: He\n\n", "data: llo\n\n", "data: [DONE]\n\n"] := by
  constructor
  · intro body key fragments hb hm hmsg hk
    simp [streamHandler, hb, hm, hmsg, hk, relayStream_eq]
  · decide

/-- Closed instance of `streaming_relay_exact_output`'s quantified part. -/
theorem streaming_relay_exact_output_witness :
    streamHandler "POST" (.obj [("model", .str "m"), ("messages", .arr [.str "x"])])
        (some "sk-ant-abc") ["He", "llo"] =
      .sse (["He", "llo"].map (fun f => "data: " ++ f ++ "\n\n") ++ ["data: [DONE]\n\n"]) :=
  streaming_relay_exact_output.1
    (.obj [("model", .str "m"), ("messages", .arr [.str "x"])])
    "sk-ant-abc" ["He", "llo"] (by decide) (by decide) (by decide) (by decide)

/-- **C1**: `checkRateLimit` is a fixed-window counter: a missing entry or
one whose `resetTime` lies strictly before `now` is replaced by
`{count: 1, resetTime: now + window}` with admission; otherwise the call
admits and increments exactly when `count < limit` and rejects otherwise.
With `limit = 3`, `window = 1000` and a fixed clock, calls one to three
for a client admit, the fourth rejects, and after the clock passes the
window the next call admits with a fresh count of 1. -/
theorem checkRateLimit_fixed_window_spec :
    (∀ (c : String) (now limit window : Nat) (store : RateLimitStore),
        (store c = none ∨ ∃ e, store c = some e ∧ e.resetTime < now) →
        (checkRateLimit c now limit window store).1 = true ∧
        (checkRateLimit c now limit window store).2 c = some ⟨1, now + window⟩) ∧
    (∀ (c : String) (now limit window : Nat) (store : RateLimitStore) (e : RateLimitEntry),
        store c = some e → ¬ e.resetTime < now → e.count < limit →
        (checkRateLimit c now limit window store).1 = true ∧
        (checkRateLimit c now limit window store).2 c = some ⟨e.count + 1, e.resetTime⟩) ∧
    (∀ (c : String) (now limit window : Nat) (store : RateLimitStore) (e : RateLimitEntry),
        store c = some e → ¬ e.resetTime < now → ¬ e.count < limit →
        (checkRateLimit c now limit window store).1 = false ∧
        (checkRateLimit c now limit window store).2 = store) ∧
    ((runRateCalls 3 1000
        [("client", 0), ("client", 0), ("client", 0), ("client", 0), ("client", 1001)]
        emptyStore).1 = [true, true, true, false, true] ∧
      (runRateCalls 3 1000
        [("client", 0), ("client", 0), ("client", 0), ("client", 0), ("client", 1001)]
        emptyStore).2 "client" = some ⟨1, 2001⟩) := by
  refine ⟨?_, ?_, ?_, ?_, ?_⟩
  · intro c now limit window store h
    rcases h with h | ⟨e, he, hlt⟩
    · simp [checkRateLimit, h]
    · simp [checkRateLimit, he, hlt]
  · intro c now limit window store e he hge hlt
    simp [checkRateLimit, he, hge, hlt]
  · intro c now limit window store e he hge hcount
    simp [checkRateLimit, he, hge, hcount]
  · decide
  · decide

/-- Closed instance of `checkRateLimit_fixed_window_spec`: the three
conditional branches applied at concrete stores. -/
theorem checkRateLimit_fixed_window_spec_witness :
    ((checkRateLimit "a" 5 3 1000 emptyStore).1 = true ∧
      (checkRateLimit "a" 5 3 1000 emptyStore).2 "a" = some ⟨1, 1005⟩) ∧
    ((checkRateLimit "a" 5 3 1000 (fun k => if k = "a" then some ⟨1, 1000⟩ else none)).1 = true ∧
      (checkRateLimit "a" 5 3 1000
        (fun k => if k = "a" then some ⟨1, 1000⟩ else none)).2 "a" = some ⟨2, 1000⟩) ∧
    ((checkRateLimit "a" 5 3 1000 (fun k => if k = "a" then some ⟨3, 1000⟩ else none)).1 = false ∧
      (checkRateLimit "a" 5 3 1000
        (fun k => if k = "a" then some ⟨3, 1000⟩ else none)).2 =
          (fun k => if k = "a" then some ⟨3, 1000⟩ else none)) :=
  ⟨checkRateLimit_fixed_window_spec.1 "a" 5 3 1000 emptyStore (Or.inl rfl),
    checkRateLimit_fixed_window_spec.2.1 "a" 5 3 1000 _ ⟨1, 1000⟩ (by decide)
      (by decide) (by decide),
    checkRateLimit_fixed_window_spec.2.2.1 "a" 5 3 1000 _ ⟨3, 1000⟩ (by decide)
      (by decide) (by decide)⟩

/-- **C10**: a `checkRateLimit` call for client `c` leaves every other
client's entry untouched, and never removes an entry from the store: any
key mapped before the call is still mapped after it. -/
theorem checkRateLimit_frame_property :
    (∀ (c : String) (now limit window : Nat) (store : RateLimitStore) (d : String),
        d ≠ c → (checkRateLimit c now limit window store).2 d = store d) ∧
    (∀ (c : String) (now limit window : Nat) (store : RateLimitStore) (d : String)
        (e : RateLimitEntry), store d = some e →
        ∃ e', (checkRateLimit c now limit window store).2 d = some e') := by
  constructor
  · intro c now limit window store d hd
    unfold checkRateLimit
    cases h : store c with
    | none => simp [hd]
    | some e =>
        by_cases h1 : e.resetTime < now
        · simp [h1, hd]
        · by_cases h2 : e.count < limit <;> simp [h1, h2, hd]
  · intro c now limit window store d e he
    by_cases hd : d = c
    · subst hd
      unfold checkRateLimit
      rw [he]
      by_cases h1 : e.resetTime < now
      · simp [h1]
      · by_cases h2 : e.count < limit <;> simp [h1, h2, he]
    · unfold checkRateLimit
      cases h : store c with
      | none => simpa [hd] using ⟨e, he⟩
      | some cur =>
          by_cases h1 : cur.resetTime < now
          · simpa [h1, hd] using ⟨e, he⟩
          · by_cases h2 : cur.count < limit <;> simpa [h1, h2, hd] using ⟨e, he⟩

/-- Closed instance of `checkRateLimit_frame_property`: a call for client
"a" leaves client "b"'s entry unchanged and removes no key. -/
theorem checkRateLimit_frame_property_witness :
    (checkRateLimit "a" 5 3 1000 (fun k => if k = "b" then some ⟨2, 9⟩ else none)).2 "b" =
        some ⟨2, 9⟩ ∧
    ∃ e', (checkRateLimit "a" 5 3 1000
        (fun k => if k = "b" then some ⟨2, 9⟩ else none)).2 "b" = some e' :=
  ⟨by
    have h := checkRateLimit_frame_property.1 "a" 5 3 1000
      (fun k => if k = "b" then some ⟨2, 9⟩ else none) "b" (by decide)
    simpa using h,
    checkRateLimit_frame_property.2 "a" 5 3 1000
      (fun k => if k = "b" then some ⟨2, 9⟩ else none) "b" ⟨2, 9⟩ (by decide)⟩

/-- **C3**: `handleProxyError` normalizes an upstream 429 to status 429 with
error `rate_limit_exceeded` and `retry_after` taken from the upstream
`retry-after` header when present (else `"60"`), a `retry-after: 30`
header yielding `retry_after = "30"`; an upstream 529 to status 503 with
error `service_unavailable` and a `Retry-After: 60` signal (carried on the
response's Retry-After header); and a connection-refused transport error
to status 503 with error `service_unavailable`. -/
theorem handleProxyError_error_mapping :
    (∀ (h : String) (etype emsg : Option String), h ≠ "" →
        handleProxyError (.httpResponse 429 (some h) etype emsg) =
          ⟨429, some h, "rate_limit_exceeded",
            msgOrDefault emsg "Claude API rate limit reached", some h⟩) ∧
    (∀ (etype emsg : Option String),
        handleProxyError (.httpResponse 429 none etype emsg) =
          ⟨429, some "60", "rate_limit_exceeded",
            msgOrDefault emsg "Claude API rate limit reached", some "60"⟩) ∧
    handleProxyError (.httpResponse 429 (some "30") none none) =
      ⟨429, some "30", "rate_limit_exceeded", "Claude API rate limit reached", some "30"⟩ ∧
    (∀ (hdr etype emsg : Option String),
        handleProxyError (.httpResponse 529 hdr etype emsg) =
          ⟨503, some "60", "service_unavailable",
            "Claude API is experiencing high traffic", none⟩) ∧
    handleProxyError (.transport "ECONNREFUSED") =
      ⟨503, none, "service_unavailable", "Could not connect to Claude API", none⟩ := by
  refine ⟨?_, ?_, by decide, ?_, by decide⟩
  · intro h etype emsg hne
    simp [handleProxyError, retryAfterOrDefault, hne]
  · intro etype emsg
    simp [handleProxyError, retryAfterOrDefault]
  · intro hdr etype emsg
    simp [handleProxyError]

/-- Closed instance of `handleProxyError_error_mapping`'s conditional
parts at concrete header values. -/
theorem handleProxyError_error_mapping_witness :
    handleProxyError (.httpResponse 429 (some "30") none (some "slow down")) =
      ⟨429, some "30", "rate_limit_exceeded",
        msgOrDefault (some "slow down") "Claude API rate limit reached", some "30"⟩ ∧
    handleProxyError (.httpResponse 429 none none none) =
      ⟨429, some "60", "rate_limit_exceeded",
        msgOrDefault none "Claude API rate limit reached", some "60"⟩ ∧
    handleProxyError (.httpResponse 529 (some "5") none none) =
      ⟨503, some "60", "service_unavailable",
        "Claude API is experiencing high traffic", none⟩ :=
  ⟨handleProxyError_error_mapping.1 "30" none (some "slow down") (by decide),
    handleProxyError_error_mapping.2.1 none none,
    handleProxyError_error_mapping.2.2.2.1 (some "5") none none⟩

/-- **C8 counterexample**: the streaming endpoint's catch-all places the
raw exception message in the response's `error` field (not the generic
`internal_server_error`), and the agent endpoint's catch-all echoes the
exception's stack trace verbatim. -/
theorem streamCatch_echoes_raw_error :
    (streamCatch ⟨"Error", "connect ECONNREFUSED 127.0.0.1:443", "trace"⟩).error =
        "connect ECONNREFUSED 127.0.0.1:443" ∧
    (streamCatch ⟨"Error", "connect ECONNREFUSED 127.0.0.1:443", "trace"⟩).error ≠
        "internal_server_error" ∧
    (streamCatch ⟨"Error", "connect ECONNREFUSED 127.0.0.1:443", "trace"⟩).details =
        "Error: connect ECONNREFUSED 127.0.0.1:443" ∧
    (agentCatch ⟨"Error", "boom", "Error: boom\n    at handler (api/agent-analyze.ts:90:5)"⟩).stack =
        "Error: boom\n    at handler (api/agent-analyze.ts:90:5)" := by
  refine ⟨by decide, by decide, by decide, by decide⟩

/-- **C8 (amended)**: the buffered proxy's error normalizer conforms — any
unclassified exception yields status 500, error `internal_server_error`
and a fixed generic message independent of the exception — but the
streaming endpoint's catch-all responds with `error = error.message` and
`details = error.toString()`, and the agent endpoint's catch-all
additionally echoes `error.stack`, so raw exception detail does reach the
caller on those endpoints. -/
theorem unclassified_error_responses :
    (∀ name message stack : String,
        handleProxyError (.exception name message stack) =
          ⟨500, none, "internal_server_error",
            "An unexpected error occurred while proxying your request", none⟩) ∧
    (∀ e : JsError, e.message ≠ "" →
        streamCatch e = ⟨500, e.message, errToString e⟩) ∧
    (∀ e : JsError, e.message ≠ "" →
        agentCatch e = ⟨500, e.message, errToString e, e.stack⟩) := by
  refine ⟨fun _ _ _ => rfl, ?_, ?_⟩
  · intro e he
    simp [streamCatch, he]
  · intro e he
    simp [agentCatch, he]

/-- Closed instance of `unclassified_error_responses` at a concrete
exception. -/
theorem unclassified_error_responses_witness :
    handleProxyError (.exception "TypeError" "x is not a function" "tr") =
      ⟨500, none, "internal_server_error",
        "An unexpected error occurred while proxying your request", none⟩ ∧
    streamCatch ⟨"TypeError", "x is not a function", "tr"⟩ =
      ⟨500, "x is not a function", errToString ⟨"TypeError", "x is not a function", "tr"⟩⟩ ∧
    agentCatch ⟨"TypeError", "x is not a function", "tr"⟩ =
      ⟨500, "x is not a function", errToString ⟨"TypeError", "x is not a function", "tr"⟩,
        "tr"⟩ :=
  ⟨unclassified_error_responses.1 "TypeError" "x is not a function" "tr",
    unclassified_error_responses.2.1 ⟨"TypeError", "x is not a function", "tr"⟩ (by decide),
    unclassified_error_responses.2.2 ⟨"TypeError", "x is not a function", "tr"⟩ (by decide)⟩

/-- **C5**: the buffered handler performs its checks in the order method
check, rate-limit check, payload validation, credential check, upstream
call; whenever one of these checks fails the handler returns the
corresponding error response (a thrown validation `TypeError` is caught
and normalized to a generic 500) and an upstream call is issued only when
every check has passed — no outbound network call on any validation or
configuration failure. -/
theorem proxyHandler_fail_fast_order :
    (∀ (req : ProxyRequest) (env : ProxyEnv) (now : Nat) (store : RateLimitStore),
        req.method ≠ "OPTIONS" → req.method ≠ "POST" →
        (proxyHandler req env now store).1 =
          .errorResponse 405 "method_not_allowed" "Only POST requests are supported") ∧
    (∀ (req : ProxyRequest) (env : ProxyEnv) (now : Nat) (store : RateLimitStore),
        req.method = "POST" →
        (checkRateLimit req.clientId now env.limit env.window store).1 = false →
        (proxyHandler req env now store).1 =
          .errorResponse 429 "rate_limit_exceeded" "Too many requests. Please try again later.") ∧
    (∀ (req : ProxyRequest) (env : ProxyEnv) (now : Nat) (store : RateLimitStore)
        (r : VResult),
        req.method = "POST" →
        (checkRateLimit req.clientId now env.limit env.window store).1 = true →
        validateClaudeRequest req.body = .ok r → r.valid = false →
        (proxyHandler req env now store).1 =
          .errorResponse 400 "invalid_request" (r.error.getD "")) ∧
    (∀ (req : ProxyRequest) (env : ProxyEnv) (now : Nat) (store : RateLimitStore)
        (r : VResult),
        req.method = "POST" →
        (checkRateLimit req.clientId now env.limit env.window store).1 = true →
        validateClaudeRequest req.body = .ok r → r.valid = true →
        env.apiKey = none →
        (proxyHandler req env now store).1 =
          .errorResponse 500 "server_configuration_error" "API key not configured on server") ∧
    (∀ (req : ProxyRequest) (env : ProxyEnv) (now : Nat) (store : RateLimitStore)
        (b : JsValue) (k : String),
        (proxyHandler req env now store).1 = .upstreamCall b k →
        req.method = "POST" ∧
        (checkRateLimit req.clientId now env.limit env.window store).1 = true ∧
        (∃ r : VResult, validateClaudeRequest req.body = .ok r ∧ r.valid = true) ∧
        env.apiKey = some k ∧ k ≠ "" ∧ b = req.body) := by
  refine ⟨?_, ?_, ?_, ?_, ?_⟩
  · intro req env now store h1 h2
    simp [proxyHandler, h1, h2]
  · intro req env now store h1 h2
    simp [proxyHandler, h1, h2]
  · intro req env now store r h1 h2 h3 h4
    simp [proxyHandler, h1, h2, h3, h4]
  · intro req env now store r h1 h2 h3 h4 h5
    simp [proxyHandler, h1, h2, h3, h4, h5]
  · intro req env now store b k h
    by_cases h1 : req.method = "OPTIONS"
    · simp [proxyHandler, h1] at h
    by_cases h2 : req.method = "POST"
    on_goal 2 => simp [proxyHandler, h1, h2] at h
    refine ⟨h2, ?_⟩
    by_cases h3 : (checkRateLimit req.clientId now env.limit env.window store).1 = false
    · simp [proxyHandler, h1, h2, h3] at h
    have h3' : (checkRateLimit req.clientId now env.limit env.window store).1 = true := by
      simpa using h3
    refine ⟨h3', ?_⟩
    cases hv : validateClaudeRequest req.body with
    | error msg => simp [proxyHandler, h1, h2, h3', hv] at h
    | ok r =>
        by_cases h4 : r.valid = false
        · simp [proxyHandler, h1, h2, h3', hv, h4] at h
        have h4' : r.valid = true := by simpa using h4
        refine ⟨⟨r, rfl, h4'⟩, ?_⟩
        cases hk : env.apiKey with
        | none => simp [proxyHandler, h1, h2, h3', hv, h4', hk] at h
        | some key =>
            by_cases h5 : key = ""
            · simp [proxyHandler, h1, h2, h3', hv, h4', hk, h5] at h
            · have := h
              simp [proxyHandler, h1, h2, h3', hv, h4', hk, h5] at this
              obtain ⟨hb, hkk⟩ := this
              exact ⟨by rw [hkk], by rw [← hkk]; exact h5, hb.symm⟩

/-- Closed instance of `proxyHandler_fail_fast_order`: a GET is refused
with 405, a rejected client gets 429, an invalid body gets 400, a missing
credential gets the configuration 500, and a fully valid request reaches
the upstream call. -/
theorem proxyHandler_fail_fast_order_witness :
    (proxyHandler ⟨"GET", "ip", .null⟩ ⟨some "sk-ant-k", 100, 60000⟩ 0 emptyStore).1 =
      .errorResponse 405 "method_not_allowed" "Only POST requests are supported" ∧
    (proxyHandler ⟨"POST", "ip", .null⟩ ⟨some "sk-ant-k", 0, 60000⟩ 0
        (fun k => if k = "ip" then some ⟨5, 60000⟩ else none)).1 =
      .errorResponse 429 "rate_limit_exceeded" "Too many requests. Please try again later." ∧
    (proxyHandler ⟨"POST", "ip", .obj []⟩ ⟨some "sk-ant-k", 100, 60000⟩ 0 emptyStore).1 =
      .errorResponse 400 "invalid_request" "Missing or invalid 'messages' array" ∧
    (proxyHandler ⟨"POST", "ip",
        .obj [("messages", .arr [.obj [("role", .str "user"), ("content", .str "Hi")]]),
              ("model", .str "claude-3-haiku-20240307")]⟩
        ⟨none, 100, 60000⟩ 0 emptyStore).1 =
      .errorResponse 500 "server_configuration_error" "API key not configured on server" :=
  ⟨proxyHandler_fail_fast_order.1 ⟨"GET", "ip", .null⟩ ⟨some "sk-ant-k", 100, 60000⟩ 0
      emptyStore (by decide) (by decide),
    proxyHandler_fail_fast_order.2.1 ⟨"POST", "ip", .null⟩ ⟨some "sk-ant-k", 0, 60000⟩ 0
      (fun k => if k = "ip" then some ⟨5, 60000⟩ else none) (by decide) (by decide),
    proxyHandler_fail_fast_order.2.2.1 ⟨"POST", "ip", .obj []⟩ ⟨some "sk-ant-k", 100, 60000⟩
      0 emptyStore ⟨false, some "Missing or invalid 'messages' array"⟩ (by decide)
      (by decide) (by decide) (by decide),
    proxyHandler_fail_fast_order.2.2.2.1 ⟨"POST", "ip",
        .obj [("messages", .arr [.obj [("role", .str "user"), ("content", .str "Hi")]]),
              ("model", .str "claude-3-haiku-20240307")]⟩
      ⟨none, 100, 60000⟩ 0 emptyStore ⟨true, none⟩ (by decide) (by decide) (by decide)
      (by decide) (by decide)⟩

/-- **C7 counterexample**: the buffered proxy handler never checks the
`sk-ant-` prefix — a fully valid request with a present but malformed
server credential is forwarded to the provider (an outbound network call
with the malformed key) instead of being rejected with a 500
`server_configuration_error`. -/
theorem proxyHandler_forwards_malformed_key :
    (proxyHandler ⟨"POST", "203.0.113.7",
        .obj [("messages", .arr [.obj [("role", .str "user"), ("content", .str "Hi")]]),
              ("model", .str "claude-3-haiku-20240307")]⟩
        ⟨some "not-an-anthropic-key", 100, 60000⟩ 0 emptyStore).1 =
      .upstreamCall
        (.obj [("messages", .arr [.obj [("role", .str "user"), ("content", .str "Hi")]]),
               ("model", .str "claude-3-haiku-20240307")])
        "not-an-anthropic-key" ∧
    keyHasAnthropicFormat (some "not-an-anthropic-key") = false := by
  refine ⟨by decide, by decide⟩

/-- **C7 (amended)**: the buffered proxy handler rejects only an *absent*
(or empty) credential — with status 500 and error kind
`server_configuration_error`, before any network call — while a present
malformed credential is forwarded upstream; the streaming handler rejects
both an absent and a non-`sk-ant-`-prefixed credential with status 500
before any upstream call, but with error string
`ANTHROPIC_API_KEY not configured` rather than the
`server_configuration_error` kind. -/
theorem credential_check_behavior :
    (∀ (req : ProxyRequest) (env : ProxyEnv) (now : Nat) (store : RateLimitStore)
        (r : VResult),
        req.method = "POST" →
        (checkRateLimit req.clientId now env.limit env.window store).1 = true →
        validateClaudeRequest req.body = .ok r → r.valid = true →
        (env.apiKey = none ∨ env.apiKey = some "") →
        (proxyHandler req env now store).1 =
          .errorResponse 500 "server_configuration_error" "API key not configured on server") ∧
    (∀ (body : JsValue) (apiKey : Option String) (fragments : List String),
        nullish body = false →
        truthy (jsAccess body "model") = true →
        truthy (jsAccess body "messages") = true →
        keyHasAnthropicFormat apiKey = false →
        streamHandler "POST" body apiKey fragments =
          .jsonError 500 "ANTHROPIC_API_KEY not configured") := by
  constructor
  · intro req env now store r h1 h2 h3 h4 h5
    rcases h5 with h5 | h5 <;> simp [proxyHandler, h1, h2, h3, h4, h5]
  · intro body apiKey fragments hb hm hmsg hk
    simp [streamHandler, hb, hm, hmsg, hk]

/-- Closed instance of `credential_check_behavior` at concrete inputs:
an unset credential on the buffered handler, and an unset and a malformed
credential on the streaming handler. -/
theorem credential_check_behavior_witness :
    (proxyHandler ⟨"POST", "ip",
        .obj [("messages", .arr [.obj [("role", .str "user"), ("content", .str "Hi")]]),
              ("model", .str "claude-3-5-sonnet-20241022")]⟩
        ⟨none, 100, 60000⟩ 7 emptyStore).1 =
      .errorResponse 500 "server_configuration_error" "API key not configured on server" ∧
    streamHandler "POST" (.obj [("model", .str "m"), ("messages", .arr [.str "x"])])
        none ["a"] = .jsonError 500 "ANTHROPIC_API_KEY not configured" ∧
    streamHandler "POST" (.obj [("model", .str "m"), ("messages", .arr [.str "x"])])
        (some "wrong-key") ["a"] = .jsonError 500 "ANTHROPIC_API_KEY not configured" :=
  ⟨credential_check_behavior.1 ⟨"POST", "ip",
      .obj [("messages", .arr [.obj [("role", .str "user"), ("content", .str "Hi")]]),
            ("model", .str "claude-3-5-sonnet-20241022")]⟩
      ⟨none, 100, 60000⟩ 7 emptyStore ⟨true, none⟩ (by decide) (by decide) (by decide)
      (by decide) (Or.inl rfl),
    credential_check_behavior.2 (.obj [("model", .str "m"), ("messages", .arr [.str "x"])])
      none ["a"] (by decide) (by decide) (by decide) (by decide),
    credential_check_behavior.2 (.obj [("model", .str "m"), ("messages", .arr [.str "x"])])
      (some "wrong-key") ["a"] (by decide) (by decide) (by decide) (by decide)⟩

/-- The message loop never throws when every element is non-nullish. -/
theorem checkMessages_ok_of_nonnullish :
    ∀ ms : List JsValue, (∀ m ∈ ms, nullish m = false) →
      ∃ o, checkMessages ms = .ok o := by
  intro ms
  induction ms with
  | nil => exact fun _ => ⟨none, rfl⟩
  | cons m rest ih =>
      intro h
      have hm : nullish m = false := h m (by simp)
      obtain ⟨o, ho⟩ := ih (fun x hx => h x (by simp [hx]))
      unfold checkMessages
      rw [getField_eq_ok hm, getField_eq_ok hm]
      by_cases h1 : (!truthy (jsAccess m "role") || !truthy (jsAccess m "content")) = true
      · exact ⟨some ⟨false, some "Each message must have 'role' and 'content'"⟩, by simp [h1]⟩
      · have h1' := eq_false_of_ne_true h1
        by_cases h2 : (jsAccess m "role" == JsValue.str "user" ||
            jsAccess m "role" == JsValue.str "assistant") = true
        · exact ⟨o, by simp [h1', h2, ho]⟩
        · exact ⟨some ⟨false, some "Message role must be 'user' or 'assistant'"⟩,
            by simp [h1', eq_false_of_ne_true h2]⟩

/-- **C9 counterexample**: `validateClaudeRequest` is not total on `null`
and `undefined` inputs — `body.messages` throws a `TypeError` there
instead of returning a `{valid, reason}` result. -/
theorem validateClaudeRequest_throws_on_null_body :
    validateClaudeRequest .null =
      .error "TypeError: Cannot read properties of null (reading 'messages')" ∧
    validateClaudeRequest .undefined =
      .error "TypeError: Cannot read properties of undefined (reading 'messages')" := by
  refine ⟨by decide, by decide⟩

/-- **C9 (amended)**: `validateClaudeRequest` is a pure, deterministic
function of its argument (the embedding is a function, so equal inputs
give equal results), and it returns a `{valid, error?}` result without
throwing on every input that is not `null`/`undefined` and whose
`messages` elements (when `messages` is an array) are not
`null`/`undefined`; on a nullish body — and on a nullish message element
reached by the scan — it throws a `TypeError` instead. -/
theorem validateClaudeRequest_total_on_nonnullish :
    ∀ body : JsValue, nullish body = false →
      (∀ ms, jsAccess body "messages" = .arr ms → ∀ m ∈ ms, nullish m = false) →
      ∃ r : VResult, validateClaudeRequest body = .ok r := by
  intro body hb hms
  unfold validateClaudeRequest validateClaudeRequestCore
  rw [getField_eq_ok hb]
  by_cases h1 : (!truthy (jsAccess body "messages") || !isArray (jsAccess body "messages")) = true
  · exact ⟨⟨false, some "Missing or invalid 'messages' array"⟩, by simp [h1]⟩
  · have h1' := eq_false_of_ne_true h1
    have harr : isArray (jsAccess body "messages") = true := by
      simp only [Bool.or_eq_false_iff, Bool.not_eq_false'] at h1'
      exact h1'.2
    obtain ⟨ms, hmsg⟩ : ∃ ms, jsAccess body "messages" = .arr ms := by
      cases h : jsAccess body "messages" <;> simp_all [isArray]
    rw [hmsg] at h1' ⊢
    simp only [h1']
    by_cases hlen : ms.length = 0
    · exact ⟨⟨false, some "Messages array cannot be empty"⟩, by simp [hlen]⟩
    · obtain ⟨o, ho⟩ := checkMessages_ok_of_nonnullish ms (hms ms hmsg)
      cases o with
      | some r => exact ⟨r, by simp [hlen, ho]⟩
      | none =>
          rw [getField_eq_ok hb]
          by_cases hmodel : truthy (jsAccess body "model") = true
          · by_cases hallow : modelAllowed allowedModels (jsAccess body "model") = true
            · rw [getField_eq_ok hb]
              by_cases hmt : (truthy (jsAccess body "max_tokens") &&
                  jsNumOutOfRange (jsAccess body "max_tokens") 4096) = true
              · exact ⟨⟨false, some ("max_tokens must be between 1 and " ++
                    toString (4096 : Int))⟩, by simp [hlen, ho, hmodel, hallow, hmt]⟩
              · exact ⟨⟨true, none⟩,
                  by simp [hlen, ho, hmodel, hallow, eq_false_of_ne_true hmt]⟩
            · exact ⟨⟨false, some ("Invalid model. Allowed models: " ++
                String.intercalate ", " allowedModels)⟩,
                by simp [hlen, ho, hmodel, eq_false_of_ne_true hallow]⟩
          · exact ⟨⟨false, some "Missing 'model' field"⟩,
              by simp [hlen, ho, eq_false_of_ne_true hmodel]⟩

/-- Closed instance of `validateClaudeRequest_total_on_nonnullish` at a
concrete non-nullish body. -/
theorem validateClaudeRequest_total_on_nonnullish_witness :
    ∃ r : VResult,
      validateClaudeRequest (.obj [("messages", .arr [.num 1])]) = .ok r :=
  validateClaudeRequest_total_on_nonnullish (.obj [("messages", .arr [.num 1])])
    (by decide) (by
      intro ms hms m hm
      simp [jsAccess, lookupField] at hms
      subst hms
      simp at hm
      subst hm
      rfl)

/-- When every (non-nullish) message passes its checks, the loop falls
through. -/
theorem checkMessages_all_ok :
    ∀ ms : List JsValue, (∀ m ∈ ms, nullish m = false) →
      (∀ m ∈ ms, msgOk m = true) → checkMessages ms = .ok none := by
  intro ms
  induction ms with
  | nil => intro _ _; rfl
  | cons m rest ih =>
      intro hn hok
      have hm : nullish m = false := hn m (by simp)
      have hmok := hok m (by simp)
      simp only [msgOk, Bool.and_eq_true, Bool.or_eq_true, beq_iff_eq] at hmok
      obtain ⟨⟨hr, hc⟩, hro⟩ := hmok
      have hcond : (jsAccess m "role" == JsValue.str "user" ||
          jsAccess m "role" == JsValue.str "assistant") = true := by
        rcases hro with h | h <;> simp [h]
      unfold checkMessages
      rw [getField_eq_ok hm, getField_eq_ok hm]
      simp [hr, hc, hcond,
        ih (fun x hx => hn x (by simp [hx])) (fun x hx => hok x (by simp [hx]))]

/-- When some (non-nullish) message fails its checks, the loop returns an
invalid result with one of the two loop reasons. -/
theorem checkMessages_first_bad :
    ∀ ms : List JsValue, (∀ m ∈ ms, nullish m = false) →
      (∃ m ∈ ms, msgOk m = false) →
      ∃ reason, checkMessages ms = .ok (some ⟨false, some reason⟩) ∧
        (reason = "Each message must have 'role' and 'content'" ∨
         reason = "Message role must be 'user' or 'assistant'") := by
  intro ms
  induction ms with
  | nil => rintro _ ⟨m, hm, _⟩; simp at hm
  | cons m rest ih =>
      rintro hn ⟨x, hx, hxbad⟩
      have hm : nullish m = false := hn m (by simp)
      unfold checkMessages
      rw [getField_eq_ok hm, getField_eq_ok hm]
      by_cases hok : msgOk m = true
      · -- the head passes, so the failing message lies in the tail
        simp only [msgOk, Bool.and_eq_true, Bool.or_eq_true, beq_iff_eq] at hok
        obtain ⟨⟨hr, hc⟩, hro⟩ := hok
        have hcond : (jsAccess m "role" == JsValue.str "user" ||
            jsAccess m "role" == JsValue.str "assistant") = true := by
          rcases hro with h | h <;> simp [h]
        have hxrest : x ∈ rest := by
          rcases List.mem_cons.mp hx with h | h
          · subst h
            exfalso
            simp only [msgOk, Bool.and_eq_true, Bool.or_eq_true, beq_iff_eq,
              Bool.not_eq_true] at hxbad
            simp [hr, hc] at hxbad
            rcases hro with h | h <;> simp [h] at hxbad
          · exact h
        obtain ⟨reason, hres, hwhich⟩ :=
          ih (fun y hy => hn y (by simp [hy])) ⟨x, hxrest, hxbad⟩
        exact ⟨reason, by simp [hr, hc, hcond, hres], hwhich⟩
      · -- the head itself fails
        by_cases h1 : (!truthy (jsAccess m "role") || !truthy (jsAccess m "content")) = true
        · exact ⟨"Each message must have 'role' and 'content'", by simp [h1], Or.inl rfl⟩
        · have h1' := eq_false_of_ne_true h1
          have h2 : (jsAccess m "role" == JsValue.str "user" ||
              jsAccess m "role" == JsValue.str "assistant") = false := by
            by_contra hc2
            apply hok
            have h2' : (jsAccess m "role" == JsValue.str "user" ||
                jsAccess m "role" == JsValue.str "assistant") = true := by
              rcases Bool.eq_false_or_eq_true (jsAccess m "role" == JsValue.str "user" ||
                  jsAccess m "role" == JsValue.str "assistant") with hb | hb
              · exact hb
              · exact absurd hb hc2
            simp only [Bool.or_eq_false_iff, Bool.not_eq_false'] at h1'
            simp [msgOk, h1'.1, h1'.2, h2']
          exact ⟨"Message role must be 'user' or 'assistant'",
            by simp [h1', h2], Or.inr rfl⟩

/-- **C2 counterexample**: a body whose `messages` array contains `null`
does not make `validateClaudeRequest` return an invalid result — the loop
throws a `TypeError` reading `role` on the `null` element (the handler's
catch-all then reports a generic 500 rather than a 400 validation
error). -/
theorem validateClaudeRequest_throws_on_null_message :
    validateClaudeRequest
        (.obj [("messages", .arr [.null]), ("model", .str "claude-3-haiku-20240307")]) =
      .error "TypeError: Cannot read properties of null (reading 'role')" := by
  decide

theorem truthy_arr (xs : List JsValue) : truthy (.arr xs) = true := rfl

theorem isArray_arr (xs : List JsValue) : isArray (.arr xs) = true := rfl

/-- **C2 (amended)**: on every body on which field access does not throw —
the body itself is not `null`/`undefined`, and (for rule 3) the scanned
message elements are not `null`/`undefined` — `validateClaudeRequest`
checks its rules in a fixed order with the first failure winning:
(1) a missing or non-array `messages` field yields invalid with the reason
"Missing or invalid 'messages' array"; (2) an empty `messages` array
yields invalid; (3) a message without truthy `role`/`content` or with a
role other than exactly `"user"`/`"assistant"` yields invalid with one of
the two loop reasons; (4) with all messages well-formed, a missing model
yields invalid, and an un-allow-listed model yields invalid even when
every other field is valid; (5) a body passing every rule (including the
`max_tokens` guard) yields valid.  (On a nullish body or message element
the validator throws a `TypeError` instead of returning a result.) -/
theorem validateClaudeRequest_rule_order :
    (∀ body : JsValue, nullish body = false →
        (truthy (jsAccess body "messages") = false ∨
         isArray (jsAccess body "messages") = false) →
        validateClaudeRequest body = .ok ⟨false, some "Missing or invalid 'messages' array"⟩) ∧
    (∀ body : JsValue, nullish body = false →
        jsAccess body "messages" = .arr [] →
        validateClaudeRequest body = .ok ⟨false, some "Messages array cannot be empty"⟩) ∧
    (∀ (body : JsValue) (ms : List JsValue), nullish body = false →
        jsAccess body "messages" = .arr ms → ms ≠ [] →
        (∀ m ∈ ms, nullish m = false) → (∃ m ∈ ms, msgOk m = false) →
        ∃ reason, validateClaudeRequest body = .ok ⟨false, some reason⟩ ∧
          (reason = "Each message must have 'role' and 'content'" ∨
           reason = "Message role must be 'user' or 'assistant'")) ∧
    (∀ (body : JsValue) (ms : List JsValue), nullish body = false →
        jsAccess body "messages" = .arr ms → ms ≠ [] →
        (∀ m ∈ ms, nullish m = false) → (∀ m ∈ ms, msgOk m = true) →
        truthy (jsAccess body "model") = false →
        validateClaudeRequest body = .ok ⟨false, some "Missing 'model' field"⟩) ∧
    (∀ (body : JsValue) (ms : List JsValue), nullish body = false →
        jsAccess body "messages" = .arr ms → ms ≠ [] →
        (∀ m ∈ ms, nullish m = false) → (∀ m ∈ ms, msgOk m = true) →
        truthy (jsAccess body "model") = true →
        modelAllowed allowedModels (jsAccess body "model") = false →
        validateClaudeRequest body =
          .ok ⟨false, some ("Invalid model. Allowed models: " ++
            String.intercalate ", " allowedModels)⟩) ∧
    (∀ (body : JsValue) (ms : List JsValue), nullish body = false →
        jsAccess body "messages" = .arr ms → ms ≠ [] →
        (∀ m ∈ ms, nullish m = false) → (∀ m ∈ ms, msgOk m = true) →
        truthy (jsAccess body "model") = true →
        modelAllowed allowedModels (jsAccess body "model") = true →
        (truthy (jsAccess body "max_tokens") &&
          jsNumOutOfRange (jsAccess body "max_tokens") 4096) = false →
        validateClaudeRequest body = .ok ⟨true, none⟩) := by
  refine ⟨?_, ?_, ?_, ?_, ?_, ?_⟩
  · intro body hb h
    unfold validateClaudeRequest validateClaudeRequestCore
    rw [getField_eq_ok hb]
    rcases h with h | h <;> simp [h]
  · intro body hb hmsg
    unfold validateClaudeRequest validateClaudeRequestCore
    rw [getField_eq_ok hb, hmsg]
    simp [truthy_arr, isArray_arr]
  · intro body ms hb hmsg hne hnn hbad
    obtain ⟨reason, hres, hwhich⟩ := checkMessages_first_bad ms hnn hbad
    refine ⟨reason, ?_, hwhich⟩
    unfold validateClaudeRequest validateClaudeRequestCore
    rw [getField_eq_ok hb, hmsg]
    simp [truthy_arr, isArray_arr, List.length_eq_zero.not.mpr hne, hres]
  · intro body ms hb hmsg hne hnn hok hmodel
    unfold validateClaudeRequest validateClaudeRequestCore
    rw [getField_eq_ok hb, hmsg]
    rw [getField_eq_ok hb]
    simp [truthy_arr, isArray_arr, List.length_eq_zero.not.mpr hne,
      checkMessages_all_ok ms hnn hok, hmodel]
  · intro body ms hb hmsg hne hnn hok hmodel hallow
    unfold validateClaudeRequest validateClaudeRequestCore
    rw [getField_eq_ok hb, hmsg]
    rw [getField_eq_ok hb]
    simp [truthy_arr, isArray_arr, List.length_eq_zero.not.mpr hne,
      checkMessages_all_ok ms hnn hok, hmodel, hallow]
  · intro body ms hb hmsg hne hnn hok hmodel hallow hmt
    have hmt' : ¬(truthy (jsAccess body "max_tokens") = true ∧
        jsNumOutOfRange (jsAccess body "max_tokens") 4096 = true) := by
      rintro ⟨h1, h2⟩
      rw [h1, h2] at hmt
      simp at hmt
    unfold validateClaudeRequest validateClaudeRequestCore
    rw [getField_eq_ok hb, hmsg]
    rw [getField_eq_ok hb, getField_eq_ok hb]
    simp [truthy_arr, isArray_arr, List.length_eq_zero.not.mpr hne,
      checkMessages_all_ok ms hnn hok, hmodel, hallow, hmt']

/-- Closed instance of `validateClaudeRequest_rule_order`: each rule
exercised at a concrete body. -/
theorem validateClaudeRequest_rule_order_witness :
    validateClaudeRequest (.obj [("messages", .str "not-an-array")]) =
      .ok ⟨false, some "Missing or invalid 'messages' array"⟩ ∧
    validateClaudeRequest (.obj [("messages", .arr [])]) =
      .ok ⟨false, some "Messages array cannot be empty"⟩ ∧
    (∃ reason, validateClaudeRequest
        (.obj [("messages", .arr [.obj [("role", .str "system"), ("content", .str "x")]]),
               ("model", .str "claude-3-haiku-20240307")]) =
        .ok ⟨false, some reason⟩ ∧
      (reason = "Each message must have 'role' and 'content'" ∨
       reason = "Message role must be 'user' or 'assistant'")) ∧
    validateClaudeRequest
        (.obj [("messages", .arr [.obj [("role", .str "user"), ("content", .str "Hi")]])]) =
      .ok ⟨false, some "Missing 'model' field"⟩ ∧
    validateClaudeRequest
        (.obj [("messages", .arr [.obj [("role", .str "user"), ("content", .str "Hi")]]),
               ("model", .str "gpt-4")]) =
      .ok ⟨false, some ("Invalid model. Allowed models: " ++
        String.intercalate ", " allowedModels)⟩ ∧
    validateClaudeRequest
        (.obj [("messages", .arr [.obj [("role", .str "user"), ("content", .str "Hi")]]),
               ("model", .str "claude-3-opus-20240229")]) =
      .ok ⟨true, none⟩ :=
  ⟨validateClaudeRequest_rule_order.1 (.obj [("messages", .str "not-an-array")])
      (by decide) (Or.inr (by decide)),
    validateClaudeRequest_rule_order.2.1 (.obj [("messages", .arr [])])
      (by decide) (by decide),
    validateClaudeRequest_rule_order.2.2.1
      (.obj [("messages", .arr [.obj [("role", .str "system"), ("content", .str "x")]]),
             ("model", .str "claude-3-haiku-20240307")])
      [.obj [("role", .str "system"), ("content", .str "x")]]
      (by decide) (by decide) (by decide)
      (by intro m hm; simp at hm; subst hm; rfl)
      ⟨.obj [("role", .str "system"), ("content", .str "x")], by simp, by decide⟩,
    validateClaudeRequest_rule_order.2.2.2.1
      (.obj [("messages", .arr [.obj [("role", .str "user"), ("content", .str "Hi")]])])
      [.obj [("role", .str "user"), ("content", .str "Hi")]]
      (by decide) (by decide) (by decide)
      (by intro m hm; simp at hm; subst hm; rfl)
      (by intro m hm; simp at hm; subst hm; decide)
      (by decide),
    validateClaudeRequest_rule_order.2.2.2.2.1
      (.obj [("messages", .arr [.obj [("role", .str "user"), ("content", .str "Hi")]]),
             ("model", .str "gpt-4")])
      [.obj [("role", .str "user"), ("content", .str "Hi")]]
      (by decide) (by decide) (by decide)
      (by intro m hm; simp at hm; subst hm; rfl)
      (by intro m hm; simp at hm; subst hm; decide)
      (by decide) (by decide),
    validateClaudeRequest_rule_order.2.2.2.2.2
      (.obj [("messages", .arr [.obj [("role", .str "user"), ("content", .str "Hi")]]),
             ("model", .str "claude-3-opus-20240229")])
      [.obj [("role", .str "user"), ("content", .str "Hi")]]
      (by decide) (by decide) (by decide)
      (by intro m hm; simp at hm; subst hm; rfl)
      (by intro m hm; simp at hm; subst hm; decide)
      (by decide) (by decide) (by decide)⟩

/-- On `bodyWithMaxTokens n` both validator variants reduce to the
`max_tokens` guard: the JavaScript condition
`body.max_tokens && (body.max_tokens < 1 || body.max_tokens > bound)`. -/
theorem validateCore_bodyWithMaxTokens (models : List String) (bound : Int)
    (hm : "claude-3-haiku-20240307" ∈ models) (n : Int) :
    validateClaudeRequestCore models bound (bodyWithMaxTokens n) =
      if n ≠ 0 ∧ (n < 1 ∨ n > bound) then
        .ok ⟨false, some ("max_tokens must be between 1 and " ++ toString bound)⟩
      else .ok ⟨true, none⟩ := by
  have hcm : checkMessages [.obj [("role", .str "user"), ("content", .str "Hi")]] =
      .ok none := by decide
  unfold validateClaudeRequestCore bodyWithMaxTokens
  simp [getField, lookupField, hcm, truthy, isArray, modelAllowed, jsNumOutOfRange, hm]

/-- **C6 (code bug)**: the `max_tokens` guard is skipped for the value 0.
The source condition `body.max_tokens && (body.max_tokens < 1 || ...)`
treats the number 0 as falsy, so a present `max_tokens` of 0 bypasses the
range check and validation succeeds in both endpoint variants, although
0 lies outside the inclusive range 1..bound the check (and its own error
message "max_tokens must be between 1 and <bound>") enforces for every
other value: validation fails exactly for present nonzero values outside
the range, not for all present values outside it. -/
theorem maxTokens_zero_accepted :
    validateClaudeRequest (bodyWithMaxTokens 0) = .ok ⟨true, none⟩ ∧
    validateClaudeRequestV2 (bodyWithMaxTokens 0) = .ok ⟨true, none⟩ ∧
    (∀ n : Int, validateClaudeRequest (bodyWithMaxTokens n) = .ok ⟨true, none⟩ ↔
        (n = 0 ∨ (1 ≤ n ∧ n ≤ 4096))) ∧
    (∀ n : Int, validateClaudeRequestV2 (bodyWithMaxTokens n) = .ok ⟨true, none⟩ ↔
        (n = 0 ∨ (1 ≤ n ∧ n ≤ 8192))) := by
  have h1 : ∀ n : Int, validateClaudeRequest (bodyWithMaxTokens n) =
      if n ≠ 0 ∧ (n < 1 ∨ n > 4096) then
        .ok ⟨false, some ("max_tokens must be between 1 and " ++ toString (4096 : Int))⟩
      else .ok ⟨true, none⟩ :=
    fun n => validateCore_bodyWithMaxTokens allowedModels 4096 (by decide) n
  have h2 : ∀ n : Int, validateClaudeRequestV2 (bodyWithMaxTokens n) =
      if n ≠ 0 ∧ (n < 1 ∨ n > 8192) then
        .ok ⟨false, some ("max_tokens must be between 1 and " ++ toString (8192 : Int))⟩
      else .ok ⟨true, none⟩ :=
    fun n => validateCore_bodyWithMaxTokens allowedModelsV2 8192 (by decide) n
  refine ⟨?_, ?_, ?_, ?_⟩
  · rw [h1 0]; simp
  · rw [h2 0]; simp
  · intro n
    rw [h1 n]
    by_cases h : n ≠ 0 ∧ (n < 1 ∨ n > 4096)
    · simp only [if_pos h]
      constructor
      · intro hc; cases hc
      · intro hc; exfalso; omega
    · simp only [if_neg h]
      constructor
      · intro _; by_contra hc; push_neg at hc; apply h; constructor <;> omega
      · intro _; trivial
  · intro n
    rw [h2 n]
    by_cases h : n ≠ 0 ∧ (n < 1 ∨ n > 8192)
    · simp only [if_pos h]
      constructor
      · intro hc; cases hc
      · intro hc; exfalso; omega
    · simp only [if_neg h]
      constructor
      · intro _; by_contra hc; push_neg at hc; apply h; constructor <;> omega
      · intro _; trivial

/-- Closed instance of `maxTokens_zero_accepted`'s quantified
characterization at an in-range value. -/
theorem maxTokens_zero_accepted_witness :
    validateClaudeRequest (bodyWithMaxTokens 7) = .ok ⟨true, none⟩ :=
  (maxTokens_zero_accepted.2.2.1 7).mpr (Or.inr ⟨by norm_num, by norm_num⟩)
